import Mathlib

/-!
Shallow embedding of `fedcloudclient/checkin.py`: the token resolution and
validation engine for EGI Check-in access tokens, together with the
VO-membership extractor.

External collaborators (the JWT decoding primitive `jwt.decode`, the system
clock `time.time`, the HTTP transport `requests`, and the `liboidcagent`
IPC) are modelled as an explicit environment record `Env`, matching the
spec's component boundaries (§1 declares them out of scope / external).
Python control flow is made explicit: normal returns, unhandled exceptions
(by exception class name) and `SystemExit` are the three constructors of
`PyResult`; observable side effects (stdout/stderr lines and adapter
invocation counters) are collected in `Eff`.
-/

set_option autoImplicit false
set_option maxRecDepth 40000

namespace Fedcloud

/-- A JSON value as it appears in a decoded token payload: number, string,
or array of strings (the shapes the code ever reads). -/
inductive ClaimValue where
  | num (n : Int)
  | str (s : String)
  | arr (l : List String)
deriving Repr, DecidableEq

/-- A decoded token payload (`jwt.decode` result): association list from
claim names to values. -/
abbrev ClaimSet := List (String × ClaimValue)

/-- Python dict subscript / `.get` lookup on a decoded payload. -/
def lookupClaim (cs : ClaimSet) (k : String) : Option ClaimValue :=
  (cs.find? (fun p => p.1 == k)).map (fun p => p.2)

/-- Python dict `.get` lookup on a parsed JSON object with string-valued
fields (discovery document, mytoken exchange response). -/
def lookupField (b : List (String × String)) (k : String) : Option String :=
  (b.find? (fun p => p.1 == k)).map (fun p => p.2)

/-- Python `int(...)` applied to a claim value: integers pass through,
integer-literal strings are parsed (`ValueError` otherwise), arrays raise
`TypeError`. -/
def pyInt : ClaimValue → Except String Int
  | ClaimValue.num n => Except.ok n
  | ClaimValue.str s =>
    match s.toInt? with
    | some n => Except.ok n
    | none => Except.error "ValueError"
  | ClaimValue.arr _ => Except.error "TypeError"

/-- An HTTP response whose JSON body is an object with string-valued
fields (mytoken exchange endpoint, OIDC discovery document). -/
structure HttpResp where
  status : Nat
  body : List (String × String)
deriving Repr, DecidableEq

/-- An HTTP response of the userinfo endpoint: status code plus the
optional `eduperson_entitlement` claim of its JSON body. -/
structure UserinfoResp where
  status : Nat
  entitlements : Option (List String)
deriving Repr, DecidableEq

/-- `requests.Response.raise_for_status()` raises `HTTPError` exactly for
4xx/5xx status codes. -/
def httpErr (status : Nat) : Bool := 400 ≤ status && status < 600

/-- Observable side effects of one call: stdout lines, stderr lines, and
invocation counters for the oidc-agent and the mytoken-server adapters. -/
structure Eff where
  stdout : List String
  stderr : List String
  agentCalls : Nat
  mytokenCalls : Nat
deriving Repr, DecidableEq

/-- Python control-flow outcome: normal return, unhandled exception
(identified by exception class name), or `SystemExit`. -/
inductive PyResult (α : Type) where
  | ret (a : α)
  | exc (e : String)
  | exit (msg : String)
deriving Repr, DecidableEq

/-- CPython terminates with status 1 when `SystemExit` carries a non-`None`,
non-`int` argument (here: the error message string); a normal return or an
unhandled exception is not a clean process-exit of this function. -/
def exitStatus {α : Type} : PyResult α → Option Nat
  | PyResult.exit _ => some 1
  | _ => none

/-- The external collaborators, per spec §1/§2:
* `jwtDecode` — behaviour of `jwt.decode(tok, options={verify_signature: False})`;
  `none` means the primitive raised `jwt.exceptions.InvalidTokenError`
  (the only failure the library signals for a malformed compact token);
* `now` — `int(time.time())`;
* `fmtUTC` — `datetime.utcfromtimestamp(ts).strftime("%Y-%m-%d %H:%M:%S")`;
* `mytokenResp` — response of `POST {server}/api/v0/token/access` for a
  given `(mytoken, mytoken_server)` pair;
* `agentGet` — `liboidcagent.get_access_token(account, ...)`: a token, or
  the message of the raised `OidcAgentError`;
* `discoveryResp` — response of `GET {url}/.well-known/openid-configuration`;
* `userinfoResp` — response of `GET {userinfo_endpoint}` with the bearer
  token, for a given `(endpoint, token)` pair. -/
structure Env where
  jwtDecode : String → Option ClaimSet
  now : Int
  fmtUTC : Int → String
  mytokenResp : String → String → HttpResp
  agentGet : String → Except String String
  discoveryResp : String → HttpResp
  userinfoResp : String → String → UserinfoResp

/-- `_MIN_ACCESS_TOKEN_TIME = 30` (minimal lifetime of the access token). -/
def MIN_ACCESS_TOKEN_TIME : Int := 30

/-- `VO_PATTERN` — the regular expression the extractor compiles. -/
def VO_PATTERN : String := "urn:mace:egi.eu:group:(.+?):(.+:)*role=member#aai.egi.eu"

/-- `print_error(message, quiet)`: the stderr lines produced — the message
iff not quiet. -/
def print_error (message : String) (quiet : Bool) : List String :=
  if quiet then [] else [message]

/-- `decode_token(oidc_access_token)`: decode without signature
verification; on `InvalidTokenError` print an error (quiet=False) and
return `None`. Result: the payload (or `none`) and the stderr lines. -/
def decode_token (env : Env) (oidc_access_token : String) :
    Option ClaimSet × List String :=
  match env.jwtDecode oidc_access_token with
  | none => (none, print_error "Error: Invalid access token." false)
  | some payload => (some payload, [])

/-- `check_token(oidc_token, verbose=False)`: decode, read `exp`
(`KeyError` if absent, `int()` conversion may raise), compare the remaining
lifetime against `_MIN_ACCESS_TOKEN_TIME`; expired tokens are reported via
`print_error(..., quiet=True)` and yield `None`; valid tokens are returned
verbatim, with informational stdout in verbose mode. -/
def check_token (env : Env) (oidc_token : String) (verbose : Bool) :
    PyResult (Option String) × Eff :=
  match decode_token env oidc_token with
  | (none, errs) => (PyResult.ret none, ⟨[], errs, 0, 0⟩)
  | (some payload, errs) =>
    match lookupClaim payload "exp" with
    | none => (PyResult.exc "KeyError", ⟨[], errs, 0, 0⟩)
    | some v =>
      match pyInt v with
      | Except.error e => (PyResult.exc e, ⟨[], errs, 0, 0⟩)
      | Except.ok exp_timestamp =>
        let exp_time_in_sec : Int := exp_timestamp - env.now
        if exp_time_in_sec < MIN_ACCESS_TOKEN_TIME then
          (PyResult.ret none,
           ⟨[], errs ++ print_error "Error: Expired access token." true, 0, 0⟩)
        else
          (PyResult.ret (some oidc_token),
           ⟨if verbose then
              ("Token is valid until " ++ env.fmtUTC exp_timestamp ++ " UTC") ::
              (if exp_time_in_sec < 24 * 3600 then
                ["Token expires in " ++ toString exp_time_in_sec ++ " seconds"]
              else
                ["Token expires in " ++ toString (exp_time_in_sec / (24 * 3600)) ++ " days"])
            else [], errs, 0, 0⟩)

/-- `get_token_from_oidc_agent(oidc_agent_account)`: if an account is given
(truthy), call the agent; a raised `OidcAgentError` is caught, reported via
`print_error(..., quiet=False)`, and `None` is returned. -/
def get_token_from_oidc_agent (env : Env) (oidc_agent_account : String) :
    PyResult (Option String) × Eff :=
  if oidc_agent_account ≠ "" then
    match env.agentGet oidc_agent_account with
    | Except.ok access_token => (PyResult.ret (some access_token), ⟨[], [], 1, 0⟩)
    | Except.error e =>
      (PyResult.ret none,
       ⟨[],
        print_error
          ("Error during getting access token from oidc-agent\n" ++
           "Error message: " ++ e) false, 1, 0⟩)
  else (PyResult.ret none, ⟨[], [], 0, 0⟩)

/-- `get_token_from_mytoken_server(mytoken, mytoken_server)`: POST the
exchange request, `raise_for_status()`, then return
`req.json().get("access_token")` (which is `None` when the field is
absent). -/
def get_token_from_mytoken_server (env : Env) (mytoken mytoken_server : String) :
    PyResult (Option String) × Eff :=
  let req := env.mytokenResp mytoken mytoken_server
  if httpErr req.status then (PyResult.exc "HTTPError", ⟨[], [], 0, 1⟩)
  else (PyResult.ret (lookupField req.body "access_token"), ⟨[], [], 0, 1⟩)

/-- The message of the `SystemExit` raised when no token source is
configured. -/
def noTokenErrorMsg : String :=
  "Error: An access token is needed for the operation. You can specify " ++
  "access token directly via --oidc-access-token option or use oidc-agent " ++
  "via --oidc-agent-account or mytoken via --mytoken"

/-- `get_access_token(oidc_access_token, oidc_agent_account, mytoken,
mytoken_server)`: the strict-priority resolution chain — explicit token
(validated by `check_token`), else mytoken exchange, else oidc-agent, else
`raise SystemExit(...)`. Python string truthiness is nonemptiness. -/
def get_access_token (env : Env)
    (oidc_access_token oidc_agent_account mytoken mytoken_server : String) :
    PyResult (Option String) × Eff :=
  if oidc_access_token ≠ "" then
    check_token env oidc_access_token false
  else if mytoken ≠ "" then
    get_token_from_mytoken_server env mytoken mytoken_server
  else if oidc_agent_account ≠ "" then
    get_token_from_oidc_agent env oidc_agent_account
  else
    (PyResult.exit noTokenErrorMsg, ⟨[], [], 0, 0⟩)

/-- `oidc_discover(oidc_url)`: GET the well-known configuration,
`raise_for_status()`, return the JSON document. -/
def oidc_discover (env : Env) (oidc_url : String) :
    PyResult (List (String × String)) :=
  let request := env.discoveryResp oidc_url
  if httpErr request.status then PyResult.exc "HTTPError"
  else PyResult.ret request.body

/-- The fixed literal fragment of `VO_PATTERN` before the first capture
group (Python regex: each `.` matches any single non-newline character). -/
def voPrefixChars : List Char := "urn:mace:egi.eu:group:".data

/-- The fixed literal fragment of `VO_PATTERN` after the starred group. -/
def voTailChars : List Char := "role=member#aai.egi.eu".data

/-- Match a fixed pattern fragment against the front of the input under
Python regex semantics for its characters: `.` matches any single
non-newline character, every other character matches itself. Returns the
unconsumed input on success. -/
def matchWild : List Char → List Char → Option (List Char)
  | [], s => some s
  | _ :: _, [] => none
  | p :: ps, c :: cs =>
    if (p = '.' ∧ c ≠ '\n') ∨ p = c then matchWild ps cs else none

/-- The language of the sub-regex `(.+:)*`: the empty string, or any
newline-free string of length at least 2 ending in `:` (a single block
`.+:` may itself contain further colons, so every such string is one
block; conversely every block sequence has this shape). -/
def starSegs (m : List Char) : Bool :=
  m.isEmpty || (2 ≤ m.length && m.getLast? == some ':' && m.all (fun c => c != '\n'))

/-- After the capture group's closing `:`, the remainder must split into a
`(.+:)*` part followed by `role=member#aai.egi.eu` followed by anything —
`re.match` anchors at the start of the string only, not at the end. -/
def voTailMatch (r : List Char) : Bool :=
  (List.range (r.length + 1)).any (fun i =>
    starSegs (r.take i) && (matchWild voTailChars (r.drop i)).isSome)

/-- Non-greedy scan for the `(.+?)` capture group: grow the candidate one
non-newline character at a time and close it at the first position where a
literal `:` followed by a matching remainder exists (leftmost-shortest,
`re` backtracking order for a non-greedy group). -/
def voScan (acc : List Char) : List Char → Option (List Char)
  | [] => none
  | c :: cs =>
    if c = '\n' then none
    else
      match cs with
      | ':' :: cs2 =>
        if voTailMatch cs2 then some (acc ++ [c]) else voScan (acc ++ [c]) cs
      | _ => voScan (acc ++ [c]) cs

/-- `re.match(VO_PATTERN, s)` restricted to its group-1 capture:
`re.compile(VO_PATTERN).match(claim)` followed by `.groups()[0]`, exactly
as `token_list_vos` uses it. -/
def vo_match (s : String) : Option String :=
  match matchWild voPrefixChars s.data with
  | none => none
  | some rest => (voScan [] rest).map (fun l => String.mk l)

/-- The extraction loop of `token_list_vos`: collect group-1 captures of
the matching entitlement strings into a set, then `sorted(vos)`. -/
def extract_vos (ents : List String) : List String :=
  List.insertionSort (fun a b => a ≤ b) ((ents.filterMap vo_match).dedup)

/-- `token_list_vos(oidc_access_token)`: read the issuer from the decoded
payload (`None["iss"]` raises `TypeError` when decoding failed, `KeyError`
when the claim is absent, and a non-string issuer makes the later URL
concatenation a `TypeError`), discover the userinfo endpoint, fetch it,
and extract the VO names from `eduperson_entitlement` (absent → `[]`). -/
def token_list_vos (env : Env) (oidc_access_token : String) :
    PyResult (List String) × Eff :=
  match decode_token env oidc_access_token with
  | (none, errs) => (PyResult.exc "TypeError", ⟨[], errs, 0, 0⟩)
  | (some payload, errs) =>
    match lookupClaim payload "iss" with
    | none => (PyResult.exc "KeyError", ⟨[], errs, 0, 0⟩)
    | some (ClaimValue.str oidc_url) =>
      (match oidc_discover env oidc_url with
       | PyResult.exc e => (PyResult.exc e, ⟨[], errs, 0, 0⟩)
       | PyResult.exit m => (PyResult.exit m, ⟨[], errs, 0, 0⟩)
       | PyResult.ret oidc_ep =>
         match lookupField oidc_ep "userinfo_endpoint" with
         | none => (PyResult.exc "KeyError", ⟨[], errs, 0, 0⟩)
         | some ep =>
           let request := env.userinfoResp ep oidc_access_token
           if httpErr request.status then (PyResult.exc "HTTPError", ⟨[], errs, 0, 0⟩)
           else
             (PyResult.ret (extract_vos (request.entitlements.getD [])),
              ⟨[], errs, 0, 0⟩))
    | some _ => (PyResult.exc "TypeError", ⟨[], errs, 0, 0⟩)

/-- Modelled from the spec: the literal entitlement grammar of §4.5,
`urn:mace:egi.eu:group:(GROUP):(ROLE-SEGMENTS:)*role=member#aai.egi.eu`,
read as written — every dot is a literal character and the grammar
describes the whole string. Fragment matcher: literal characters only. -/
def matchLit : List Char → List Char → Option (List Char)
  | [], s => some s
  | _ :: _, [] => none
  | p :: ps, c :: cs => if p = c then matchLit ps cs else none

/-- Modelled from the spec: the `(ROLE-SEGMENTS:)*` part of the §4.5
grammar — a possibly-empty sequence of nonempty segments each followed by
`:`; such sequences are exactly the empty string and the strings of length
at least 2 ending in `:`. -/
def specStarSegs (m : List Char) : Bool :=
  m.isEmpty || (2 ≤ m.length && m.getLast? == some ':')

/-- Modelled from the spec: after the GROUP capture's closing `:`, the
rest of the string must be a `(ROLE-SEGMENTS:)*` part followed by exactly
the literal tail `role=member#aai.egi.eu` — the grammar covers the whole
string, so nothing may follow. -/
def specTailMatch (r : List Char) : Bool :=
  (List.range (r.length + 1)).any (fun i =>
    specStarSegs (r.take i) && r.drop i == voTailChars)

/-- Modelled from the spec: shortest-GROUP scan for the §4.5 grammar
(mirroring the capture choice of the non-greedy group in the code). -/
def specScan (acc : List Char) : List Char → Option (List Char)
  | [] => none
  | c :: cs =>
    match cs with
    | ':' :: cs2 =>
      if specTailMatch cs2 then some (acc ++ [c]) else specScan (acc ++ [c]) cs
    | _ => specScan (acc ++ [c]) cs

/-- Modelled from the spec: the GROUP capture of a string that matches the
§4.5 grammar as written (literal dots, whole-string match), or `none` when
the string does not match the grammar. -/
def specGrammarCapture (s : String) : Option String :=
  match matchLit voPrefixChars s.data with
  | none => none
  | some rest => (specScan [] rest).map (fun l => String.mk l)

/-- Modelled from the spec: "the lexicographically sorted, duplicate-free
set of GROUP captures of the strings matching the grammar" (§4.5 steps
5–6), built from `specGrammarCapture`. -/
def spec_extract_vos (ents : List String) : List String :=
  List.insertionSort (fun a b => a ≤ b) ((ents.filterMap specGrammarCapture).dedup)

/-- Substring test on character lists (used to state that an error message
names a configuration option). -/
def hasSeg (needle hay : List Char) : Bool :=
  (List.range (hay.length + 1)).any (fun i => (hay.drop i).take needle.length == needle)

/-- The entitlement list of the spec's VO-extraction test (§8). -/
def entsEx : List String :=
  ["urn:mace:egi.eu:group:vo.example.eu:role=member#aai.egi.eu",
   "urn:mace:egi.eu:group:vo.example.eu:role=manager#aai.egi.eu",
   "not-a-matching-string"]

/-- An entitlement string with trailing characters after the grammar's
final `eu`: `re.match` accepts it (no end anchor), the literal grammar
does not. -/
def cexEntitlement : String :=
  "urn:mace:egi.eu:group:vo.x:role=member#aai.egi.eu-suffix"

/-- Example JWT decoder: three decodable tokens (one fresh, one expired,
one without an `exp` claim) and failure on everything else. -/
def jwtDecodeEx : String → Option ClaimSet := fun t =>
  if t = "tokValid" then
    some [("exp", ClaimValue.num 1000), ("iss", ClaimValue.str "https://iss.example")]
  else if t = "tokOld" then some [("exp", ClaimValue.num 929)]
  else if t = "tokNoExp" then some [("iss", ClaimValue.str "https://iss.example")]
  else none

/-- Example timestamp formatter. -/
def fmtEx : Int → String := fun _ => "2026-01-01 00:00:00"

/-- Example mytoken server: HTTP 500 for server "bad", HTTP 200 with an
empty JSON object for server "nofield", otherwise HTTP 200 with an
access token. -/
def mytokenRespEx : String → String → HttpResp := fun _ srv =>
  if srv = "bad" then HttpResp.mk 500 []
  else if srv = "nofield" then HttpResp.mk 200 []
  else HttpResp.mk 200 [("access_token", "abc.def.ghi")]

/-- Example oidc-agent: a token for account "good", an error otherwise. -/
def agentGetEx : String → Except String String := fun acct =>
  if acct = "good" then Except.ok "agentTok" else Except.error "agent down"

/-- Example discovery endpoint. -/
def discoveryRespEx : String → HttpResp := fun url =>
  if url = "https://iss.example" then
    HttpResp.mk 200 [("userinfo_endpoint", "https://ui.example")]
  else HttpResp.mk 404 []

/-- Example userinfo endpoint: the spec's entitlement list for the fresh
token, the trailing-suffix entitlement for every other bearer. -/
def userinfoRespEx : String → String → UserinfoResp := fun ep tok =>
  if ep = "https://ui.example" then
    (if tok = "tokValid" then UserinfoResp.mk 200 (some entsEx)
     else UserinfoResp.mk 200 (some [cexEntitlement]))
  else UserinfoResp.mk 500 none

/-- Example environment (clock at 900, so "tokValid" has 100 s left and
"tokOld" has 29 s left). -/
def envEx : Env :=
  Env.mk jwtDecodeEx 900 fmtEx mytokenRespEx agentGetEx discoveryRespEx userinfoRespEx

/-- A second environment sharing only the mytoken server with `envEx`:
its JWT decoder rejects everything and its clock is far in the future. -/
def envB : Env :=
  Env.mk (fun _ => none) 123456 fmtEx mytokenRespEx agentGetEx discoveryRespEx userinfoRespEx

/-! ## Helper lemmas -/

/-- `check_token` performs no adapter calls in any of its branches. -/
theorem check_token_adapter_silent (env : Env) (t : String) (vb : Bool) :
    (check_token env t vb).2.agentCalls = 0 ∧ (check_token env t vb).2.mytokenCalls = 0 := by
  constructor <;>
  · unfold check_token decode_token
    repeat first
    | rfl
    | split
    | dsimp only

/-- Evaluation of `check_token` on a decodable token with an integer
`exp` claim: the validity test is `exp - now < 30`. -/
theorem check_token_eval (env : Env) (tok : String) (vb : Bool)
    (payload : ClaimSet) (v : ClaimValue) (e : Int)
    (hdec : env.jwtDecode tok = some payload)
    (hexp : lookupClaim payload "exp" = some v)
    (hint : pyInt v = Except.ok e) :
    check_token env tok vb =
      (if e - env.now < MIN_ACCESS_TOKEN_TIME then
        (PyResult.ret none, Eff.mk [] [] 0 0)
      else
        (PyResult.ret (some tok),
         Eff.mk
           (if vb then
              ("Token is valid until " ++ env.fmtUTC e ++ " UTC") ::
              (if e - env.now < 24 * 3600 then
                ["Token expires in " ++ toString (e - env.now) ++ " seconds"]
              else
                ["Token expires in " ++ toString ((e - env.now) / (24 * 3600)) ++ " days"])
            else []) [] 0 0)) := by
  unfold check_token decode_token
  rw [hdec]
  simp only [hexp, hint]
  by_cases h : e - env.now < MIN_ACCESS_TOKEN_TIME <;> simp [h, print_error]

/-! ## Claim theorems -/

/-- C1: if an explicit access token is supplied (non-empty), the whole
resolution is `check_token` of that token; neither the mytoken exchange
nor the agent adapter is invoked, whatever the other inputs are; and when
the explicit token is valid, the returned token is the supplied string
verbatim. -/
theorem explicit_token_priority (env : Env)
    (oidc_access_token oidc_agent_account mytoken mytoken_server : String)
    (hne : oidc_access_token ≠ "") :
    get_access_token env oidc_access_token oidc_agent_account mytoken mytoken_server =
      check_token env oidc_access_token false ∧
    (get_access_token env oidc_access_token oidc_agent_account mytoken mytoken_server).2.agentCalls = 0 ∧
    (get_access_token env oidc_access_token oidc_agent_account mytoken mytoken_server).2.mytokenCalls = 0 ∧
    (∀ payload v e, env.jwtDecode oidc_access_token = some payload →
      lookupClaim payload "exp" = some v → pyInt v = Except.ok e →
      MIN_ACCESS_TOKEN_TIME ≤ e - env.now →
      (get_access_token env oidc_access_token oidc_agent_account mytoken mytoken_server).1 =
        PyResult.ret (some oidc_access_token)) := by
  have hmain :
      get_access_token env oidc_access_token oidc_agent_account mytoken mytoken_server =
        check_token env oidc_access_token false := by
    simp [get_access_token, hne]
  refine ⟨hmain, ?_, ?_, ?_⟩
  · rw [hmain]; exact (check_token_adapter_silent env oidc_access_token false).1
  · rw [hmain]; exact (check_token_adapter_silent env oidc_access_token false).2
  · intro payload v e hdec hexp hint hfresh
    rw [hmain, check_token_eval env oidc_access_token false payload v e hdec hexp hint]
    have h : ¬ (e - env.now < MIN_ACCESS_TOKEN_TIME) := not_lt.mpr hfresh
    simp [h]

/-- C1 witness. -/
theorem explicit_token_priority_witness :
    get_access_token envEx "tokValid" "good" "mt" "srv" = check_token envEx "tokValid" false ∧
    (get_access_token envEx "tokValid" "good" "mt" "srv").1 = PyResult.ret (some "tokValid") := by
  have h := explicit_token_priority envEx "tokValid" "good" "mt" "srv" (by decide)
  exact ⟨h.1, h.2.2.2
    [("exp", ClaimValue.num 1000), ("iss", ClaimValue.str "https://iss.example")]
    (ClaimValue.num 1000) 1000 rfl rfl rfl (by decide)⟩

/-- C2: an expired explicit token, with an agent account also configured,
yields no usable token and the resolution does not fall through — no
agent or mytoken call is made and no effect at all is produced (the
expired-token message is passed to `print_error` with `quiet=True`). -/
theorem expired_explicit_no_fallback (env : Env)
    (tok acct myt srv : String) (payload : ClaimSet) (v : ClaimValue) (e : Int)
    (hne : tok ≠ "") (_hacct : acct ≠ "")
    (hdec : env.jwtDecode tok = some payload)
    (hexp : lookupClaim payload "exp" = some v)
    (hint : pyInt v = Except.ok e)
    (hold : e - env.now < MIN_ACCESS_TOKEN_TIME) :
    get_access_token env tok acct myt srv = (PyResult.ret none, Eff.mk [] [] 0 0) := by
  have hmain : get_access_token env tok acct myt srv = check_token env tok false := by
    simp [get_access_token, hne]
  rw [hmain, check_token_eval env tok false payload v e hdec hexp hint]
  simp [hold]

/-- C2 witness. -/
theorem expired_explicit_no_fallback_witness :
    get_access_token envEx "tokOld" "good" "mt" "srv" = (PyResult.ret none, Eff.mk [] [] 0 0) :=
  expired_explicit_no_fallback envEx "tokOld" "good" "mt" "srv"
    [("exp", ClaimValue.num 929)] (ClaimValue.num 929) 929
    (by decide) (by decide) rfl rfl rfl (by decide)

/-- C3: for a decodable token with integer `exp` claim, `check_token`
returns the token itself when `exp - now ≥ 30` and no usable token when
`exp - now ≤ 29`. -/
theorem check_token_validity_boundary (env : Env) (tok : String) (vb : Bool)
    (payload : ClaimSet) (v : ClaimValue) (e : Int)
    (hdec : env.jwtDecode tok = some payload)
    (hexp : lookupClaim payload "exp" = some v)
    (hint : pyInt v = Except.ok e) :
    (MIN_ACCESS_TOKEN_TIME ≤ e - env.now →
      (check_token env tok vb).1 = PyResult.ret (some tok)) ∧
    (e - env.now ≤ MIN_ACCESS_TOKEN_TIME - 1 →
      (check_token env tok vb).1 = PyResult.ret none) := by
  rw [check_token_eval env tok vb payload v e hdec hexp hint]
  constructor
  · intro hfresh
    have h : ¬ (e - env.now < MIN_ACCESS_TOKEN_TIME) := not_lt.mpr hfresh
    simp [h]
  · intro hstale
    have h : e - env.now < MIN_ACCESS_TOKEN_TIME := by omega
    simp [h]

/-- C3 witness: `exp - now = 100` is valid, `exp - now = 29` (boundary
minus one) is not. -/
theorem check_token_validity_boundary_witness :
    (check_token envEx "tokValid" false).1 = PyResult.ret (some "tokValid") ∧
    (check_token envEx "tokOld" false).1 = PyResult.ret none :=
  ⟨(check_token_validity_boundary envEx "tokValid" false
      [("exp", ClaimValue.num 1000), ("iss", ClaimValue.str "https://iss.example")]
      (ClaimValue.num 1000) 1000 rfl rfl rfl).1 (by decide),
   (check_token_validity_boundary envEx "tokOld" false
      [("exp", ClaimValue.num 929)] (ClaimValue.num 929) 929 rfl rfl rfl).2 (by decide)⟩

/-- C4: with no explicit token and a mytoken supplied, the resolution is
exactly the mytoken exchange; no validity check is applied to the
exchanged token — the outcome does not depend on the JWT decoder, the
clock, or any other collaborator besides the exchange server (second
conjunct: any environment with the same exchange server gives the same
result). -/
theorem mytoken_no_post_validation (env env2 : Env) (acct myt srv : String)
    (hm : myt ≠ "") (henv : env2.mytokenResp = env.mytokenResp) :
    get_access_token env "" acct myt srv = get_token_from_mytoken_server env myt srv ∧
    get_access_token env2 "" acct myt srv = get_access_token env "" acct myt srv := by
  constructor
  · simp [get_access_token, hm]
  · simp [get_access_token, hm, get_token_from_mytoken_server, henv]

/-- C4 witness: `envB` disagrees with `envEx` on the decoder and the
clock, yet resolves the mytoken identically. -/
theorem mytoken_no_post_validation_witness :
    get_access_token envEx "" "good" "mt" "srv" =
      get_token_from_mytoken_server envEx "mt" "srv" ∧
    get_access_token envB "" "good" "mt" "srv" =
      get_access_token envEx "" "good" "mt" "srv" :=
  mytoken_no_post_validation envEx envB "good" "mt" "srv" (by decide) rfl

/-- C5: with all three sources absent, the resolution raises `SystemExit`
(process terminates with status 1) carrying a message that names the
explicit-token option, the oidc-agent option and the mytoken option; no
call and no output happens. -/
theorem no_source_fatal_exit (env : Env) (a b m s : String)
    (ha : a = "") (hm : m = "") (hb : b = "") :
    get_access_token env a b m s = (PyResult.exit noTokenErrorMsg, Eff.mk [] [] 0 0) ∧
    exitStatus (get_access_token env a b m s).1 = some 1 ∧
    hasSeg "--oidc-access-token".data noTokenErrorMsg.data = true ∧
    hasSeg "--oidc-agent-account".data noTokenErrorMsg.data = true ∧
    hasSeg "--mytoken".data noTokenErrorMsg.data = true := by
  subst ha hm hb
  refine ⟨by simp [get_access_token], by simp [get_access_token, exitStatus], ?_, ?_, ?_⟩ <;> decide

/-- C5 witness. -/
theorem no_source_fatal_exit_witness :
    get_access_token envEx "" "" "" "srv" = (PyResult.exit noTokenErrorMsg, Eff.mk [] [] 0 0) ∧
    exitStatus (get_access_token envEx "" "" "" "srv").1 = some 1 :=
  ⟨(no_source_fatal_exit envEx "" "" "" "srv" rfl rfl rfl).1,
   (no_source_fatal_exit envEx "" "" "" "srv" rfl rfl rfl).2.1⟩

/-- C7: the mytoken exchange propagates `HTTPError` on any 4xx/5xx
status; on a success status it returns `req.json().get("access_token")`:
no token when the field is absent, exactly the field's value otherwise. -/
theorem mytoken_exchange_outcomes (env : Env) (m s : String) :
    (400 ≤ (env.mytokenResp m s).status → (env.mytokenResp m s).status < 600 →
      get_token_from_mytoken_server env m s = (PyResult.exc "HTTPError", Eff.mk [] [] 0 1)) ∧
    ((env.mytokenResp m s).status < 400 →
      get_token_from_mytoken_server env m s =
        (PyResult.ret (lookupField (env.mytokenResp m s).body "access_token"),
         Eff.mk [] [] 0 1)) ∧
    ((env.mytokenResp m s).status < 400 →
      lookupField (env.mytokenResp m s).body "access_token" = none →
      (get_token_from_mytoken_server env m s).1 = PyResult.ret none) ∧
    (∀ t, (env.mytokenResp m s).status < 400 →
      lookupField (env.mytokenResp m s).body "access_token" = some t →
      (get_token_from_mytoken_server env m s).1 = PyResult.ret (some t)) := by
  refine ⟨?_, ?_, ?_, ?_⟩
  · intro h1 h2
    have h : httpErr (env.mytokenResp m s).status = true := by
      simp [httpErr]; omega
    simp [get_token_from_mytoken_server, h]
  · intro h1
    have h : httpErr (env.mytokenResp m s).status = false := by
      simp [httpErr]; omega
    simp [get_token_from_mytoken_server, h]
  · intro h1 h2
    have h : httpErr (env.mytokenResp m s).status = false := by
      simp [httpErr]; omega
    simp [get_token_from_mytoken_server, h, h2]
  · intro t h1 h2
    have h : httpErr (env.mytokenResp m s).status = false := by
      simp [httpErr]; omega
    simp [get_token_from_mytoken_server, h, h2]

/-- C7 witness: HTTP 500 propagates `HTTPError`, HTTP 200 without the
field yields no token, HTTP 200 with the field yields its exact value. -/
theorem mytoken_exchange_outcomes_witness :
    get_token_from_mytoken_server envEx "mt" "bad" =
      (PyResult.exc "HTTPError", Eff.mk [] [] 0 1) ∧
    (get_token_from_mytoken_server envEx "mt" "nofield").1 = PyResult.ret none ∧
    (get_token_from_mytoken_server envEx "mt" "srv").1 = PyResult.ret (some "abc.def.ghi") :=
  ⟨(mytoken_exchange_outcomes envEx "mt" "bad").1 (by decide) (by decide),
   (mytoken_exchange_outcomes envEx "mt" "nofield").2.2.1 (by decide) rfl,
   (mytoken_exchange_outcomes envEx "mt" "srv").2.2.2 "abc.def.ghi" (by decide) rfl⟩

/-- Membership in the extracted VO list is exactly "some entitlement's
group-1 capture". -/
theorem mem_extract_vos (ents : List String) (v : String) :
    v ∈ extract_vos ents ↔ ∃ e ∈ ents, vo_match e = some v := by
  unfold extract_vos
  rw [(List.perm_insertionSort _ _).mem_iff, List.mem_dedup, List.mem_filterMap]

/-- C6 (amended): `token_list_vos` returns the lexicographically sorted,
duplicate-free set of group-1 captures of the entitlement strings that
`VO_PATTERN` matches under Python `re.match` semantics (anchored at the
start only, `.` in the fixed parts matching any non-newline character,
non-greedy shortest GROUP capture); non-matching strings are dropped
without error, and on the spec's three-string example the result is
exactly `["vo.example.eu"]`. -/
theorem token_list_vos_regex_semantics (env : Env) (tok : String)
    (payload : ClaimSet) (url ep : String) (ents : List String)
    (hdec : env.jwtDecode tok = some payload)
    (hiss : lookupClaim payload "iss" = some (ClaimValue.str url))
    (hds : (env.discoveryResp url).status < 400)
    (hep : lookupField (env.discoveryResp url).body "userinfo_endpoint" = some ep)
    (hus : (env.userinfoResp ep tok).status < 400)
    (hent : (env.userinfoResp ep tok).entitlements = some ents) :
    (token_list_vos env tok).1 = PyResult.ret (extract_vos ents) ∧
    List.Sorted (fun a b => a ≤ b) (extract_vos ents) ∧
    (extract_vos ents).Nodup ∧
    (∀ v, v ∈ extract_vos ents ↔ ∃ e ∈ ents, vo_match e = some v) ∧
    extract_vos
      ["urn:mace:egi.eu:group:vo.example.eu:role=member#aai.egi.eu",
       "urn:mace:egi.eu:group:vo.example.eu:role=manager#aai.egi.eu",
       "not-a-matching-string"] = ["vo.example.eu"] := by
  refine ⟨?_, ?_, ?_, fun v => mem_extract_vos ents v, by decide⟩
  · have hd : httpErr (env.discoveryResp url).status = false := by
      simp [httpErr]; omega
    have hu : httpErr (env.userinfoResp ep tok).status = false := by
      simp [httpErr]; omega
    unfold token_list_vos decode_token oidc_discover
    rw [hdec]
    simp only [hiss, hd, hep, hu, hent, Bool.false_eq_true, if_false, Option.getD_some]
  · exact List.sorted_insertionSort (fun a b => a ≤ b) _
  · exact ((List.perm_insertionSort _ _).nodup_iff).2 (List.nodup_dedup _)

/-- C6 witness. -/
theorem token_list_vos_regex_semantics_witness :
    (token_list_vos envEx "tokValid").1 = PyResult.ret ["vo.example.eu"] := by
  have h := token_list_vos_regex_semantics envEx "tokValid"
    [("exp", ClaimValue.num 1000), ("iss", ClaimValue.str "https://iss.example")]
    "https://iss.example" "https://ui.example" entsEx
    rfl rfl (by decide) rfl (by decide) rfl
  rw [h.1]
  exact congrArg PyResult.ret (by decide)

/-- C6 counterexample: an entitlement with trailing characters after the
grammar's final `eu` does not match the spec's grammar as written, yet
the code extracts a VO name from it — so the result is not the capture
set of the grammar-matching strings. -/
theorem vo_grammar_counterexample :
    (token_list_vos envEx "tokNoExp").1 = PyResult.ret ["vo.x"] ∧
    extract_vos [cexEntitlement] = ["vo.x"] ∧
    spec_extract_vos [cexEntitlement] = [] ∧
    specGrammarCapture cexEntitlement = none ∧
    extract_vos [cexEntitlement] ≠ spec_extract_vos [cexEntitlement] := by
  refine ⟨by decide, by decide, by decide, by decide, by decide⟩

/-- C8: malformed and expired tokens are reported through `print_error`
— an error path whose `quiet` flag suppresses the stderr message when
set and prints it when not — and the default check flow returns no
usable token in both cases instead of raising: the malformed-token
message goes through `print_error(..., quiet=False)` and the
expired-token message through `print_error(..., quiet=True)`. -/
theorem quiet_error_reporting (env : Env) (t1 t2 : String) (vb1 vb2 : Bool)
    (payload : ClaimSet) (v : ClaimValue) (e : Int)
    (hbad : env.jwtDecode t1 = none)
    (hdec : env.jwtDecode t2 = some payload)
    (hexp : lookupClaim payload "exp" = some v)
    (hint : pyInt v = Except.ok e)
    (hold : e - env.now < MIN_ACCESS_TOKEN_TIME) :
    (∀ msg : String, print_error msg false = [msg] ∧ print_error msg true = []) ∧
    check_token env t1 vb1 =
      (PyResult.ret none,
       Eff.mk [] (print_error "Error: Invalid access token." false) 0 0) ∧
    check_token env t2 vb2 =
      (PyResult.ret none,
       Eff.mk [] (print_error "Error: Expired access token." true) 0 0) := by
  refine ⟨fun msg => ⟨rfl, rfl⟩, ?_, ?_⟩
  · unfold check_token decode_token
    rw [hbad]
  · rw [check_token_eval env t2 vb2 payload v e hdec hexp hint]
    simp [hold, print_error]

/-- C8 witness. -/
theorem quiet_error_reporting_witness :
    check_token envEx "garbage" true =
      (PyResult.ret none, Eff.mk [] ["Error: Invalid access token."] 0 0) ∧
    check_token envEx "tokOld" false = (PyResult.ret none, Eff.mk [] [] 0 0) ∧
    print_error "m" false = ["m"] ∧
    print_error "m" true = [] := by
  have h := quiet_error_reporting envEx "garbage" "tokOld" true false
    [("exp", ClaimValue.num 929)] (ClaimValue.num 929) 929
    rfl rfl rfl rfl (by decide)
  exact ⟨h.2.1, h.2.2, (h.1 "m").1, (h.1 "m").2⟩

/-- C9: `decode_token` is total — when the decoding primitive rejects the
string (raises `InvalidTokenError`), it reports the error and returns the
absent-token value, never a fault (its result type carries no exception
case); on success it returns the primitive's claim set, and the result is
a pure function of the decoding primitive's answer on the input. -/
theorem decode_token_total (env : Env) (tok : String) :
    (env.jwtDecode tok = none →
      decode_token env tok = (none, ["Error: Invalid access token."])) ∧
    (∀ payload, env.jwtDecode tok = some payload →
      decode_token env tok = (some payload, [])) ∧
    (∀ (env2 : Env) (tok2 : String), env2.jwtDecode tok2 = env.jwtDecode tok →
      decode_token env2 tok2 = decode_token env tok) := by
  refine ⟨?_, ?_, ?_⟩
  · intro h; unfold decode_token; rw [h]; rfl
  · intro payload h; unfold decode_token; rw [h]
  · intro env2 tok2 h; unfold decode_token; rw [h]

/-- C9 witness. -/
theorem decode_token_total_witness :
    decode_token envEx "garbage" = (none, ["Error: Invalid access token."]) ∧
    decode_token envEx "tokOld" = (some [("exp", ClaimValue.num 929)], []) :=
  ⟨(decode_token_total envEx "garbage").1 rfl,
   (decode_token_total envEx "tokOld").2.1 [("exp", ClaimValue.num 929)] rfl⟩

/-- C10: `token_list_vos` on an undecodable token dereferences the `None`
returned by `decode_token` and raises `TypeError` (an unhandled fault)
instead of reporting `MalformedToken` or returning an empty list; and
`check_token` on a decodable token whose payload has no `exp` claim
raises `KeyError`. -/
theorem missing_claims_fault (env : Env) (t1 t2 : String) (vb : Bool)
    (payload : ClaimSet)
    (hbad : env.jwtDecode t1 = none)
    (hdec : env.jwtDecode t2 = some payload)
    (hnoexp : lookupClaim payload "exp" = none) :
    (token_list_vos env t1).1 = PyResult.exc "TypeError" ∧
    (check_token env t2 vb).1 = PyResult.exc "KeyError" := by
  constructor
  · unfold token_list_vos decode_token
    rw [hbad]
  · unfold check_token decode_token
    rw [hdec]
    simp [hnoexp]

/-- C10 witness. -/
theorem missing_claims_fault_witness :
    (token_list_vos envEx "garbage").1 = PyResult.exc "TypeError" ∧
    (check_token envEx "tokNoExp" false).1 = PyResult.exc "KeyError" :=
  missing_claims_fault envEx "garbage" "tokNoExp" false
    [("iss", ClaimValue.str "https://iss.example")] rfl rfl rfl

end Fedcloud
